import Mathlib

/-!
Shallow embedding of the plan-execution and verification pipeline of the
AI-Operations-Assistant repository (src/agents/executor.py and
src/agents/verifier.py), together with theorems settling the frozen claims
about it.

Python's dynamically-typed JSON-like values are modelled by `PyVal`;
Python dicts (string-keyed, insertion-ordered, assignment overwrites in
place) by association lists with an overwriting insert; a statement that
may raise a Python exception by `Except String`, the `String` carrying the
exception message.
-/

set_option autoImplicit false

namespace AIOps

/-- Python values as they flow through the pipeline: `None`, booleans,
integers, floats (carried by their decimal rendering, since the pipeline
never computes with them, only prints them), strings, lists and
string-keyed dicts. -/
inductive PyVal where
  | none
  | bool (b : Bool)
  | int (n : Int)
  | float (rep : String)
  | str (s : String)
  | list (xs : List PyVal)
  | dict (kvs : List (String × PyVal))
deriving Repr

/-- First-match association-list lookup: Python `d[k]` / `d.get(k)` on a
dict whose keys are unique (our inserts overwrite in place, keeping keys
unique). -/
def alookup {α : Type} : List (String × α) → String → Option α
  | [], _ => Option.none
  | (k', v) :: rest, k => if k' = k then some v else alookup rest k

/-- Python dict assignment `d[k] = v`: overwrite in place if the key is
present, else append at the end (insertion order preserved). -/
def dinsert : List (String × PyVal) → String → PyVal → List (String × PyVal)
  | [], k, v => [(k, v)]
  | (k', v') :: rest, k, v =>
      if k' = k then (k, v) :: rest else (k', v') :: dinsert rest k v

/-- Python type name, used in exception messages. -/
def pyTypeName : PyVal → String
  | .none => "NoneType"
  | .bool _ => "bool"
  | .int _ => "int"
  | .float _ => "float"
  | .str _ => "str"
  | .list _ => "list"
  | .dict _ => "dict"

mutual

/-- Python `repr`. String escaping inside quotes is not modelled; none of
the rendered strings in this development contain quotes. -/
def pyRepr : PyVal → String
  | .none => "None"
  | .bool b => if b then "True" else "False"
  | .int n => toString n
  | .float rep => rep
  | .str s => "'" ++ s ++ "'"
  | .list xs => "[" ++ pyReprList xs ++ "]"
  | .dict kvs => "\x7b" ++ pyReprDict kvs ++ "\x7d"

def pyReprList : List PyVal → String
  | [] => ""
  | [x] => pyRepr x
  | x :: xs => pyRepr x ++ ", " ++ pyReprList xs

def pyReprDict : List (String × PyVal) → String
  | [] => ""
  | [(k, v)] => "'" ++ k ++ "': " ++ pyRepr v
  | (k, v) :: kvs => "'" ++ k ++ "': " ++ pyRepr v ++ ", " ++ pyReprDict kvs

end

/-- Python `str()`, as used by f-string interpolation. -/
def pyStr : PyVal → String
  | .str s => s
  | v => pyRepr v

/-- Python truthiness (`if x:`). A float is falsy exactly when it is a
zero; the pipeline never branches on a float's truthiness. -/
def pyTruthy : PyVal → Bool
  | .none => false
  | .bool b => b
  | .int n => n != 0
  | .float rep => !(rep = "0.0" || rep = "-0.0" || rep = "0")
  | .str s => s ≠ ""
  | .list xs => !xs.isEmpty
  | .dict kvs => !kvs.isEmpty

/-- Python `isinstance(v, dict) and "error" in v`: the structural ErrorPayload
tag used throughout executor.py. -/
def isErrorPayload (v : PyVal) : Bool :=
  match v with
  | .dict kvs => (alookup kvs "error").isSome
  | _ => false

/-- The dict `{"error": msg}` with a string message, as built by execute_step. -/
def errDict (msg : String) : PyVal :=
  .dict [("error", .str msg)]

/-- The `error` entry of an ErrorPayload (`step_result["error"]`); only
consulted under an `isErrorPayload` guard. -/
def errorVal (v : PyVal) : PyVal :=
  match v with
  | .dict kvs => (alookup kvs "error").getD .none
  | _ => .none

/-- A connector capability: given the step's `parameters` and the index of
the invocation within one `execute_step` call (0 = first call, 1 = the
retry), it either returns a value or raises an exception with the given
message. Indexing by invocation lets one capability behave differently on
the retry, as a real network call can. -/
def Cap : Type := PyVal → Nat → Except String PyVal

/-- A connector: its capabilities by function name (`hasattr`/`getattr`
resolution becomes association-list lookup). -/
def Tool : Type := List (String × Cap)

/-- The registry `self.tools` of ExecutorAgent: tool name to connector. -/
def Registry : Type := List (String × Tool)

/-- One plan step, with the fields execute_plan / execute_step read:
`step.get("step_number")`, `step.get("action")`, `step.get("tool")`,
`step.get("function")`, `step.get("parameters", {})`. -/
structure Step where
  step_number : PyVal
  action : PyVal
  tool : String
  function : String
  parameters : PyVal
deriving Repr

/-- A plan, with the fields execute_plan reads:
`plan.get("task_understanding", "Unknown task")` (the default already
applied) and `plan.get("steps", [])`. -/
structure Plan where
  task_understanding : PyVal
  steps : List Step
deriving Repr

/-- One entry of `steps_executed`. -/
structure StepRecord where
  step_number : PyVal
  action : PyVal
  tool : String
  function : String
  status : String
  result : PyVal
deriving Repr

/-- One entry of `errors`: `{"step": step_number, "error": step_result["error"]}`. -/
structure ErrEntry where
  step : PyVal
  error : PyVal
deriving Repr

/-- The dict returned by execute_plan. `final_data = some v` models the
key `"final_data"` being present with value `v`. -/
structure ExecutionResult where
  task : PyVal
  steps_executed : List StepRecord
  errors : List ErrEntry
  raw_data : List (String × PyVal)
  final_data : Option PyVal
deriving Repr

/-- The body of the `try:` block of `ExecutorAgent.execute_step`: invoke
the capability with the step's parameters; if the first result is
structurally an ErrorPayload, invoke once more with identical parameters
and return that second result; any exception from either invocation is
caught and converted to `{"error": "Execution failed: <message>"}`. -/
def call_capability (f : Cap) (params : PyVal) : PyVal :=
  match f params 0 with
  | .error e => errDict ("Execution failed: " ++ e)
  | .ok result =>
    if isErrorPayload result then
      match f params 1 with
      | .error e => errDict ("Execution failed: " ++ e)
      | .ok r2 => r2
    else result

/-- Embeds `ExecutorAgent.execute_step`: resolve the tool in the registry, then
the function on the tool, then run the guarded invocation. -/
def execute_step (tools : Registry) (step : Step) : PyVal :=
  match alookup tools step.tool with
  | Option.none => errDict ("Tool '" ++ step.tool ++ "' not found")
  | some tool =>
    match alookup tool step.function with
    | Option.none =>
        errDict ("Function '" ++ step.function ++ "' not found in tool '"
          ++ step.tool ++ "'")
    | some f => call_capability f step.parameters

/-- The step key `"step_" + str(step_number)`. -/
def stepKey (s : Step) : String := "step_" ++ pyStr s.step_number

/-- The StepRecord appended for a step whose outcome is `r`. -/
def mkRecord (s : Step) (r : PyVal) : StepRecord :=
  { step_number := s.step_number
    action := s.action
    tool := s.tool
    function := s.function
    status := if isErrorPayload r then "failed" else "success"
    result := r }

/-- One iteration of the loop body of execute_plan: run the step, append
its StepRecord, key `raw_data` by the step key, and append to `errors`
when the outcome is an ErrorPayload. -/
def step_update (tools : Registry) (acc : ExecutionResult) (s : Step) :
    ExecutionResult :=
  let r := execute_step tools s
  { acc with
    steps_executed := acc.steps_executed ++ [mkRecord s r]
    raw_data := dinsert acc.raw_data (stepKey s) r
    errors := acc.errors ++
      (if isErrorPayload r then [⟨s.step_number, errorVal r⟩] else []) }

/-- The `for step in steps:` loop of execute_plan. -/
def exec_loop (tools : Registry) (acc : ExecutionResult) :
    List Step → ExecutionResult
  | [] => acc
  | s :: rest => exec_loop tools (step_update tools acc s) rest

/-- The `results` dict as initialized at the top of execute_plan. -/
def planInit (plan : Plan) : ExecutionResult :=
  { task := plan.task_understanding
    steps_executed := []
    errors := []
    raw_data := []
    final_data := Option.none }

/-- Embeds `ExecutorAgent.execute_plan`: run every step in array order, then set
`final_data` to the raw_data entry keyed by the last step's number exactly
when `errors` is empty, `raw_data` is non-empty and `steps` was
non-empty. -/
def execute_plan (tools : Registry) (plan : Plan) : ExecutionResult :=
  let r := exec_loop tools (planInit plan) plan.steps
  match plan.steps.getLast? with
  | Option.none => r
  | some last =>
    if r.errors.isEmpty && !r.raw_data.isEmpty then
      { r with
        final_data := some ((alookup r.raw_data (stepKey last)).getD .none) }
    else r

/-- The dict returned by verify_results. `raw_results = some er` models
the key `"raw_results"` being present (only the Incomplete shape has
it). -/
structure VerificationResult where
  is_complete : Bool
  confidence : String
  final_answer : String
  issues_found : List String
  missing_data : List String
  suggestions : List String
  raw_results : Option ExecutionResult
deriving Repr

/-- Embeds `VerifierAgent._incomplete`. -/
def incomplete (reason : String) (execution_results : ExecutionResult)
    (confidence : String) : VerificationResult :=
  { is_complete := false
    confidence := confidence
    final_answer := "Unable to fully complete the task: " ++ reason ++ "."
    issues_found := [reason]
    missing_data := []
    suggestions := []
    raw_results := some execution_results }

/-- Python `v.get(k, default)`: attribute lookup on a non-dict raises
`AttributeError`. -/
def pyGet (v : PyVal) (k : String) (default : PyVal) :
    Except String PyVal :=
  match v with
  | .dict kvs => .ok ((alookup kvs k).getD default)
  | _ => .error ("AttributeError: '" ++ pyTypeName v
      ++ "' object has no attribute 'get'")

/-- Python iteration (`for x in v`): lists yield elements, strings yield
their characters as one-character strings, dicts yield their keys,
everything else raises `TypeError`. -/
def pyIter : PyVal → Except String (List PyVal)
  | .list xs => .ok xs
  | .str s => .ok (s.toList.map fun c => .str (String.singleton c))
  | .dict kvs => .ok (kvs.map fun kv => .str kv.1)
  | v => .error ("TypeError: '" ++ pyTypeName v
      ++ "' object is not iterable")

/-- The per-article f-string of `_format_final_answer` (1-indexed `i`):
title, nested source name, publish timestamp, URL. Raises when the
article, or its `source` entry, is not a dict. -/
def render_article (i : Nat) (article : PyVal) : Except String String := do
  let title ← pyGet article "title" (.str "No title")
  let sourceObj ← pyGet article "source" (.dict [])
  let source ← pyGet sourceObj "name" (.str "Unknown source")
  let published ← pyGet article "publishedAt" (.str "Unknown date")
  let url ← pyGet article "url" (.str "")
  .ok (toString i ++ ". " ++ pyStr title
    ++ "\n   Source: " ++ pyStr source
    ++ "\n   Published: " ++ pyStr published
    ++ "\n   Link: " ++ pyStr url ++ "\n")

/-- The `for i, article in enumerate(articles, start=1)` loop, building
the list of rendered lines. -/
def render_articles (i : Nat) : List PyVal → Except String (List String)
  | [] => .ok []
  | a :: rest => do
    let line ← render_article i a
    let restLines ← render_articles (i + 1) rest
    .ok (line :: restLines)

/-- The fixed header line of the news rendering. -/
def newsHeader : String :=
  "Here are the most recent Tesla-related news articles from the last month:\n"

/-- Embeds `VerifierAgent._format_final_answer`: shape dispatch on the payload.
A mapping containing `"articles"` takes the news path (empty-evaluating
article sequence gives a fixed literal); otherwise a mapping containing
`"temperature"` gives the four-line weather report; everything else
falls back to `str(data)`. -/
def format_final_answer (task : String) (data : PyVal) :
    Except String String :=
  match data with
  | .dict kvs =>
    match alookup kvs "articles" with
    | some articles =>
      if !pyTruthy articles then
        .ok "No relevant news articles were found."
      else do
        let items ← pyIter articles
        let lines ← render_articles 1 items
        .ok (String.intercalate "\n" (newsHeader :: lines))
    | Option.none =>
      if (alookup kvs "temperature").isSome then
        .ok ("Current Weather Report:\n"
          ++ "Temperature: " ++ pyStr ((alookup kvs "temperature").getD .none)
          ++ " " ++ pyStr ((alookup kvs "units").getD .none) ++ "\n"
          ++ "Condition: " ++ pyStr ((alookup kvs "description").getD .none) ++ "\n"
          ++ "Humidity: " ++ pyStr ((alookup kvs "humidity").getD .none) ++ "%\n"
          ++ "Wind Speed: " ++ pyStr ((alookup kvs "wind_speed").getD .none)
          ++ " m/s")
      else .ok (pyStr data)
  | _ => .ok (pyStr data)

/-- Embeds `VerifierAgent.verify_results`: non-empty `errors` gives Incomplete
with reason "Execution errors occurred"; a falsy `final_data` (absent or
empty-evaluating) gives Incomplete with reason "No data returned from
tools"; otherwise Complete with the rendered final answer (the rendering
step may raise, and verify_results does not catch that). -/
def verify_results (original_task : String)
    (execution_results : ExecutionResult) (plan : Plan) :
    Except String VerificationResult :=
  if !execution_results.errors.isEmpty then
    .ok (incomplete "Execution errors occurred" execution_results "low")
  else
    match execution_results.final_data with
    | Option.none =>
        .ok (incomplete "No data returned from tools" execution_results "low")
    | some fd =>
      if !pyTruthy fd then
        .ok (incomplete "No data returned from tools" execution_results "low")
      else do
        let ans ← format_final_answer original_task fd
        .ok { is_complete := true
              confidence := "high"
              final_answer := ans
              issues_found := []
              missing_data := []
              suggestions := []
              raw_results := Option.none }

/-! ### Helper lemmas about the executor loop -/

theorem alookup_dinsert_self (d : List (String × PyVal)) (k : String)
    (v : PyVal) : alookup (dinsert d k v) k = some v := by
  induction d with
  | nil => simp [dinsert, alookup]
  | cons kv rest ih =>
    by_cases h : kv.1 = k
    · simp [dinsert, h, alookup]
    · simp [dinsert, h, alookup, ih]

theorem dinsert_ne_nil (d : List (String × PyVal)) (k : String)
    (v : PyVal) : dinsert d k v ≠ [] := by
  cases d with
  | nil => simp [dinsert]
  | cons kv rest =>
    by_cases h : kv.1 = k <;> simp [dinsert, h]

theorem exec_loop_final_data (t : Registry) (steps : List Step) :
    ∀ acc : ExecutionResult,
    (exec_loop t acc steps).final_data = acc.final_data := by
  induction steps with
  | nil => intro acc; rfl
  | cons s rest ih => intro acc; simp [exec_loop, ih, step_update]

theorem exec_loop_task (t : Registry) (steps : List Step) :
    ∀ acc : ExecutionResult, (exec_loop t acc steps).task = acc.task := by
  induction steps with
  | nil => intro acc; rfl
  | cons s rest ih => intro acc; simp [exec_loop, ih, step_update]

theorem exec_loop_steps_executed (t : Registry) (steps : List Step) :
    ∀ acc : ExecutionResult,
    (exec_loop t acc steps).steps_executed =
      acc.steps_executed
        ++ steps.map (fun s => mkRecord s (execute_step t s)) := by
  induction steps with
  | nil => intro acc; simp [exec_loop]
  | cons s rest ih =>
    intro acc
    simp [exec_loop, ih, step_update]

/-- The entries the loop appends to `errors`: one per step whose outcome
is an ErrorPayload, in plan order. -/
def errEntries (t : Registry) (steps : List Step) : List ErrEntry :=
  (steps.filter fun s => isErrorPayload (execute_step t s)).map
    fun s => ⟨s.step_number, errorVal (execute_step t s)⟩

theorem exec_loop_errors (t : Registry) (steps : List Step) :
    ∀ acc : ExecutionResult,
    (exec_loop t acc steps).errors = acc.errors ++ errEntries t steps := by
  induction steps with
  | nil => intro acc; simp [exec_loop, errEntries]
  | cons s rest ih =>
    intro acc
    by_cases h : isErrorPayload (execute_step t s)
    · simp [exec_loop, ih, step_update, errEntries, h, List.filter_cons]
    · simp [exec_loop, ih, step_update, errEntries, h, List.filter_cons]

theorem exec_loop_raw_data_ne_nil (t : Registry) (steps : List Step) :
    ∀ acc : ExecutionResult, steps ≠ [] →
    (exec_loop t acc steps).raw_data ≠ [] := by
  induction steps with
  | nil => intro acc h; exact absurd rfl h
  | cons s rest ih =>
    intro acc _
    cases rest with
    | nil => exact dinsert_ne_nil _ _ _
    | cons s' rest' => exact ih _ (by simp)

/-- Looking up the last step's key in the final `raw_data` yields the last
step's outcome, even when an earlier step wrote the same key. -/
theorem exec_loop_raw_data_last (t : Registry) (steps : List Step) :
    ∀ acc : ExecutionResult, ∀ last : Step, steps.getLast? = some last →
    alookup (exec_loop t acc steps).raw_data (stepKey last) =
      some (execute_step t last) := by
  induction steps with
  | nil => intro acc last h; simp at h
  | cons s rest ih =>
    intro acc last h
    cases rest with
    | nil =>
      simp at h
      subst h
      simp [exec_loop, step_update, alookup_dinsert_self]
    | cons s' rest' =>
      rw [List.getLast?_cons_cons] at h
      exact ih _ last h

/-! ### Claims about the Step Executor -/

/-- C7: a step naming an unregistered tool yields
`{"error": "Tool '<tool>' not found"}` for every registry lacking that
key (so the result is independent of every connector's behaviour), and a
step whose tool resolves but whose function is not a capability of that
connector yields `{"error": "Function '<function>' not found in tool
'<tool>'"}`, likewise without any capability invocation. -/
theorem executeStep_unknown_tool_or_function (t : Registry) (s : Step) :
    (alookup t s.tool = Option.none →
      execute_step t s = errDict ("Tool '" ++ s.tool ++ "' not found")) ∧
    (∀ tool : Tool, alookup t s.tool = some tool →
      alookup tool s.function = Option.none →
      execute_step t s =
        errDict ("Function '" ++ s.function ++ "' not found in tool '"
          ++ s.tool ++ "'")) := by
  constructor
  · intro h
    simp [execute_step, h]
  · intro tool htool hfn
    simp [execute_step, htool, hfn]

/-- A step naming the unregistered tool `"foo"`. -/
def fooStep : Step :=
  { step_number := .int 1
    action := .str "lookup"
    tool := "foo"
    function := "run"
    parameters := .dict [] }

/-- A capability that always succeeds with a fixed string. -/
def okCap : Cap := fun _ _ => .ok (.str "payload")

/-- A one-tool registry whose `"news"` connector has only `"get_news"`. -/
def newsRegistry : Registry := [("news", [("get_news", okCap)])]

/-- A step naming the registered tool `"news"` but a missing function. -/
def badFnStep : Step :=
  { step_number := .int 1
    action := .str "lookup"
    tool := "news"
    function := "fetch_everything"
    parameters := .dict [] }

/-- Witness for C7 at concrete inputs, exercising both branches. -/
theorem executeStep_unknown_tool_or_function_witness :
    execute_step [] fooStep = errDict "Tool 'foo' not found" ∧
    execute_step newsRegistry badFnStep =
      errDict "Function 'fetch_everything' not found in tool 'news'" := by
  constructor
  · exact (executeStep_unknown_tool_or_function [] fooStep).1 rfl
  · exact (executeStep_unknown_tool_or_function newsRegistry badFnStep).2
      [("get_news", okCap)] rfl rfl

/-- C3: once tool and function resolve, the step's outcome is the guarded
invocation with `step.parameters`; a first result that is structurally an
ErrorPayload triggers exactly one further invocation with identical
parameters whose result is returned regardless of outcome; a first
invocation that raises is converted to `{"error": "Execution failed:
<message>"}`; a non-ErrorPayload first result is returned after one
invocation (the outcome is determined by invocation 0 alone in the
no-retry cases). -/
theorem executeStep_retry_policy (t : Registry) (s : Step) (tool : Tool)
    (f : Cap) (htool : alookup t s.tool = some tool)
    (hfn : alookup tool s.function = some f) :
    execute_step t s = call_capability f s.parameters ∧
    (∀ r : PyVal, f s.parameters 0 = .ok r → isErrorPayload r = true →
      execute_step t s =
        (match f s.parameters 1 with
         | .ok r2 => r2
         | .error m => errDict ("Execution failed: " ++ m))) ∧
    (∀ m : String, f s.parameters 0 = .error m →
      execute_step t s = errDict ("Execution failed: " ++ m)) ∧
    (∀ r : PyVal, f s.parameters 0 = .ok r → isErrorPayload r = false →
      execute_step t s = r) ∧
    (∀ g : Cap, g s.parameters 0 = f s.parameters 0 →
      (∀ r : PyVal, f s.parameters 0 = .ok r → isErrorPayload r = false) →
      call_capability g s.parameters = call_capability f s.parameters) := by
  have hstep : execute_step t s = call_capability f s.parameters := by
    simp [execute_step, htool, hfn]
  refine ⟨hstep, ?_, ?_, ?_, ?_⟩
  · intro r h0 hr
    rw [hstep]
    cases h1 : f s.parameters 1 with
    | ok r2 => simp [call_capability, h0, hr, h1]
    | error m => simp [call_capability, h0, hr, h1]
  · intro m h0
    rw [hstep]
    simp [call_capability, h0]
  · intro r h0 hr
    rw [hstep]
    simp [call_capability, h0, hr]
  · intro g hg hnoerr
    unfold call_capability
    rw [hg]
    cases h0 : f s.parameters 0 with
    | error m => rfl
    | ok r => simp [hnoerr r h0]

/-- A capability whose first invocation returns an ErrorPayload and whose
retry succeeds. -/
def flakyCap : Cap := fun _ n =>
  if n = 0 then .ok (errDict "rate limited") else .ok (.str "second try")

/-- A registry exposing `flakyCap` as `weather.get_weather`. -/
def flakyRegistry : Registry := [("weather", [("get_weather", flakyCap)])]

/-- A step invoking `weather.get_weather`. -/
def weatherStep : Step :=
  { step_number := .int 1
    action := .str "fetch weather"
    tool := "weather"
    function := "get_weather"
    parameters := .dict [("city", .str "Paris")] }

/-- Witness for C3 at a concrete input: the retry path returns the second
invocation's result. -/
theorem executeStep_retry_policy_witness :
    execute_step flakyRegistry weatherStep = .str "second try" := by
  have h := (executeStep_retry_policy flakyRegistry weatherStep
    [("get_weather", flakyCap)] flakyCap rfl rfl).2.1
      (errDict "rate limited") rfl rfl
  simpa using h

/-- C10: when the first invocation returns an ErrorPayload and the retry
raises with message `m`, the step's outcome is
`{"error": "Execution failed: <m>"}`: the first error payload is
discarded and the retry's exception is captured by the same uniform
handler, so execute_step never propagates an exception (it is total,
returning a `PyVal` on every path). -/
theorem executeStep_retry_exception_captured (t : Registry) (s : Step)
    (tool : Tool) (f : Cap) (htool : alookup t s.tool = some tool)
    (hfn : alookup tool s.function = some f) (r : PyVal) (m : String)
    (h0 : f s.parameters 0 = .ok r) (hr : isErrorPayload r = true)
    (h1 : f s.parameters 1 = .error m) :
    execute_step t s = errDict ("Execution failed: " ++ m) := by
  simp [execute_step, htool, hfn, call_capability, h0, hr, h1]

/-- A capability whose first invocation returns an ErrorPayload and whose
retry raises. -/
def doomedCap : Cap := fun _ n =>
  if n = 0 then .ok (errDict "rate limited") else .error "connection reset"

/-- A registry exposing `doomedCap` as `serp.search`. -/
def doomedRegistry : Registry := [("serp", [("search", doomedCap)])]

/-- A step invoking `serp.search`. -/
def serpStep : Step :=
  { step_number := .int 2
    action := .str "search"
    tool := "serp"
    function := "search"
    parameters := .dict [("q", .str "lean")] }

/-- Witness for C10 at a concrete input. -/
theorem executeStep_retry_exception_captured_witness :
    execute_step doomedRegistry serpStep =
      errDict "Execution failed: connection reset" := by
  exact executeStep_retry_exception_captured doomedRegistry serpStep
    [("search", doomedCap)] doomedCap rfl rfl (errDict "rate limited")
    "connection reset" rfl rfl rfl

/-! ### Claims about the Plan Executor -/

theorem execute_plan_projections (t : Registry) (plan : Plan) :
    (execute_plan t plan).steps_executed =
      (exec_loop t (planInit plan) plan.steps).steps_executed ∧
    (execute_plan t plan).errors =
      (exec_loop t (planInit plan) plan.steps).errors ∧
    (execute_plan t plan).raw_data =
      (exec_loop t (planInit plan) plan.steps).raw_data := by
  unfold execute_plan
  cases plan.steps.getLast? with
  | none => exact ⟨rfl, rfl, rfl⟩
  | some last =>
    by_cases h : ((exec_loop t (planInit plan) plan.steps).errors.isEmpty
        && !(exec_loop t (planInit plan) plan.steps).raw_data.isEmpty) = true
    · simp [h]
    · simp [h]

/-- C1: `final_data` is present exactly when the aggregated `errors` are
empty, `raw_data` is non-empty and the plan had at least one step; when
present it is the `raw_data` entry keyed by `"step_" + (last step's
step_number)`, which is the last step's outcome (the last step's write is
the final one for that key). In particular a two-step plan whose outcomes
are both not ErrorPayloads ends with `errors = []` and `final_data`
equal to the raw_data entry keyed by the second step's number. -/
theorem executePlan_final_data_policy (t : Registry) (plan : Plan) :
    ((execute_plan t plan).final_data.isSome = true ↔
      ((execute_plan t plan).errors = [] ∧
        (execute_plan t plan).raw_data ≠ [] ∧ plan.steps ≠ [])) ∧
    (∀ last : Step, plan.steps.getLast? = some last →
      ∀ v : PyVal, (execute_plan t plan).final_data = some v →
      alookup (execute_plan t plan).raw_data
        ("step_" ++ pyStr last.step_number) = some v ∧
      v = execute_step t last) ∧
    (∀ s1 s2 : Step, plan.steps = [s1, s2] →
      isErrorPayload (execute_step t s1) = false →
      isErrorPayload (execute_step t s2) = false →
      (execute_plan t plan).errors = [] ∧
      (execute_plan t plan).final_data =
        alookup (execute_plan t plan).raw_data
          ("step_" ++ pyStr s2.step_number)) := by
  have hfd0 : (exec_loop t (planInit plan) plan.steps).final_data
      = Option.none := exec_loop_final_data t plan.steps (planInit plan)
  obtain ⟨hse, herr, hraw⟩ := execute_plan_projections t plan
  refine ⟨?_, ?_, ?_⟩
  · cases hlast : plan.steps.getLast? with
    | none =>
      have hsteps : plan.steps = [] := List.getLast?_eq_none_iff.mp hlast
      simp [execute_plan, hsteps, exec_loop, planInit]
    | some last =>
      have hne : plan.steps ≠ [] := by
        intro h
        rw [h] at hlast
        simp at hlast
      by_cases hc : ((exec_loop t (planInit plan) plan.steps).errors.isEmpty
          && !(exec_loop t (planInit plan) plan.steps).raw_data.isEmpty)
          = true
      · have hp : execute_plan t plan =
            { exec_loop t (planInit plan) plan.steps with
              final_data := some ((alookup
                (exec_loop t (planInit plan) plan.steps).raw_data
                (stepKey last)).getD .none) } := by
          simp [execute_plan, hlast, hc]
        rw [hp]
        simp only [Bool.and_eq_true, Bool.not_eq_true', List.isEmpty_iff,
          List.isEmpty_eq_false] at hc
        simp [hc.1, hc.2, hne]
      · have hp : execute_plan t plan =
            exec_loop t (planInit plan) plan.steps := by
          simp [execute_plan, hlast, hc]
        rw [hp, hfd0]
        simp only [Bool.and_eq_true, Bool.not_eq_true', List.isEmpty_iff,
          List.isEmpty_eq_false] at hc
        simp only [Option.isSome_none, Bool.false_eq_true, false_iff]
        intro hcontra
        exact hc ⟨hcontra.1, hcontra.2.1⟩
  · intro last hlast v hv
    by_cases hc : ((exec_loop t (planInit plan) plan.steps).errors.isEmpty
        && !(exec_loop t (planInit plan) plan.steps).raw_data.isEmpty)
        = true
    · have hp : execute_plan t plan =
          { exec_loop t (planInit plan) plan.steps with
            final_data := some ((alookup
              (exec_loop t (planInit plan) plan.steps).raw_data
              (stepKey last)).getD .none) } := by
        simp [execute_plan, hlast, hc]
      have hlook := exec_loop_raw_data_last t plan.steps (planInit plan)
        last hlast
      rw [hp] at hv
      simp only [ExecutionResult.mk.injEq] at hv ⊢
      have hv' : ((alookup (exec_loop t (planInit plan) plan.steps).raw_data
          (stepKey last)).getD .none) = v := by
        exact Option.some.inj hv
      rw [hlook] at hv'
      simp only [Option.getD_some] at hv'
      constructor
      · rw [hraw]
        show alookup (exec_loop t (planInit plan) plan.steps).raw_data
          (stepKey last) = some v
        rw [hlook, hv']
      · exact hv'.symm
    · have hp : execute_plan t plan =
          exec_loop t (planInit plan) plan.steps := by
        simp [execute_plan, hlast, hc]
      rw [hp, hfd0] at hv
      exact absurd hv (by simp)
  · intro s1 s2 h12 h1 h2
    have herr2 : (exec_loop t (planInit plan) plan.steps).errors = [] := by
      rw [exec_loop_errors, h12]
      simp [planInit, errEntries, List.filter_cons, h1, h2]
    have hraw2 : (exec_loop t (planInit plan) plan.steps).raw_data ≠ [] :=
      exec_loop_raw_data_ne_nil t plan.steps (planInit plan)
        (by rw [h12]; simp)
    have hlast : plan.steps.getLast? = some s2 := by
      rw [h12]
      rfl
    have hc : ((exec_loop t (planInit plan) plan.steps).errors.isEmpty
        && !(exec_loop t (planInit plan) plan.steps).raw_data.isEmpty)
        = true := by
      simp [herr2, hraw2]
    have hp : execute_plan t plan =
        { exec_loop t (planInit plan) plan.steps with
          final_data := some ((alookup
            (exec_loop t (planInit plan) plan.steps).raw_data
            (stepKey s2)).getD .none) } := by
      simp [execute_plan, hlast, hc]
    have hlook := exec_loop_raw_data_last t plan.steps (planInit plan)
      s2 hlast
    constructor
    · rw [herr, herr2]
    · rw [hp]
      show some ((alookup (exec_loop t (planInit plan) plan.steps).raw_data
          (stepKey s2)).getD .none) =
        alookup (exec_loop t (planInit plan) plan.steps).raw_data
          (stepKey s2)
      rw [hlook]
      rfl

/-- A successful `news.get_news` step labelled 1. -/
def newsStep1 : Step :=
  { step_number := .int 1
    action := .str "fetch news"
    tool := "news"
    function := "get_news"
    parameters := .dict [("topic", .str "tesla")] }

/-- A successful `news.get_news` step labelled 2. -/
def newsStep2 : Step :=
  { step_number := .int 2
    action := .str "fetch more news"
    tool := "news"
    function := "get_news"
    parameters := .dict [("topic", .str "spacex")] }

/-- A two-step plan over `newsRegistry` whose steps both succeed. -/
def twoStepPlan : Plan :=
  { task_understanding := .str "fetch news"
    steps := [newsStep1, newsStep2] }

/-- Witness for C1 at a concrete two-step plan with two successes. -/
theorem executePlan_final_data_policy_witness :
    (execute_plan newsRegistry twoStepPlan).errors = [] ∧
    (execute_plan newsRegistry twoStepPlan).final_data =
      alookup (execute_plan newsRegistry twoStepPlan).raw_data
        ("step_" ++ pyStr newsStep2.step_number) := by
  exact (executePlan_final_data_policy newsRegistry twoStepPlan).2.2
    newsStep1 newsStep2 rfl rfl rfl

/-- C4: every step of the plan is processed in array order regardless of
earlier failures: `steps_executed` has exactly one StepRecord per step in
plan order, a record's status is `"failed"` exactly when its result is an
ErrorPayload and `"success"` otherwise, `errors` collects exactly one
entry per ErrorPayload outcome in plan order, and the number of error
entries equals the number of `"failed"` records. -/
theorem executePlan_processes_all_steps (t : Registry) (plan : Plan) :
    (execute_plan t plan).steps_executed =
      plan.steps.map (fun s => mkRecord s (execute_step t s)) ∧
    (∀ rec : StepRecord, rec ∈ (execute_plan t plan).steps_executed →
      rec.status =
        (if isErrorPayload rec.result then "failed" else "success")) ∧
    (execute_plan t plan).errors =
      (plan.steps.filter fun s => isErrorPayload (execute_step t s)).map
        (fun s => ⟨s.step_number, errorVal (execute_step t s)⟩) ∧
    (execute_plan t plan).errors.length =
      ((execute_plan t plan).steps_executed.filter
        fun rec => rec.status == "failed").length := by
  obtain ⟨hse, herr, _⟩ := execute_plan_projections t plan
  have h1 : (execute_plan t plan).steps_executed =
      plan.steps.map (fun s => mkRecord s (execute_step t s)) := by
    rw [hse, exec_loop_steps_executed]
    simp [planInit]
  have h3 : (execute_plan t plan).errors =
      (plan.steps.filter fun s => isErrorPayload (execute_step t s)).map
        (fun s => ⟨s.step_number, errorVal (execute_step t s)⟩) := by
    rw [herr, exec_loop_errors]
    simp [planInit, errEntries]
  refine ⟨h1, ?_, h3, ?_⟩
  · intro rec hrec
    rw [h1] at hrec
    obtain ⟨s, _, hs⟩ := List.mem_map.mp hrec
    rw [← hs]
    simp [mkRecord]
  · rw [h1, h3, List.length_map, List.filter_map, List.length_map]
    congr 1
    apply List.filter_congr
    intro s _
    by_cases h : isErrorPayload (execute_step t s)
    · simp [mkRecord, h]
    · simp [mkRecord, h]

/-- A two-step plan over `newsRegistry` whose first step fails (unknown
tool) and whose second succeeds. -/
def mixedPlan : Plan :=
  { task_understanding := .str "mixed"
    steps := [fooStep, newsStep2] }

/-- Witness for C4 at a concrete plan with one failing and one succeeding
step: the failing step does not stop the second, both records are
present in order, and error count matches failed-record count. -/
theorem executePlan_processes_all_steps_witness :
    (execute_plan newsRegistry mixedPlan).steps_executed =
      [mkRecord fooStep (execute_step newsRegistry fooStep),
        mkRecord newsStep2 (execute_step newsRegistry newsStep2)] ∧
    (mkRecord fooStep (execute_step newsRegistry fooStep)).status =
      (if isErrorPayload
          ((mkRecord fooStep (execute_step newsRegistry fooStep)).result)
        then "failed" else "success") ∧
    (execute_plan newsRegistry mixedPlan).errors.length =
      ((execute_plan newsRegistry mixedPlan).steps_executed.filter
        fun rec => rec.status == "failed").length := by
  have h := executePlan_processes_all_steps newsRegistry mixedPlan
  refine ⟨h.1, ?_, h.2.2.2⟩
  exact h.2.1 (mkRecord fooStep (execute_step newsRegistry fooStep))
    (by rw [h.1]; exact List.mem_cons_self _ _)

/-- C6: a plan with an empty steps sequence executes to
`errors = []`, `raw_data = {}` and no `final_data`, and verification of
that result is Incomplete with reason "No data returned from tools" and
low confidence. -/
theorem executePlan_empty_steps (t : Registry) (task : String)
    (plan : Plan) (h : plan.steps = []) :
    (execute_plan t plan).errors = [] ∧
    (execute_plan t plan).raw_data = [] ∧
    (execute_plan t plan).final_data = Option.none ∧
    verify_results task (execute_plan t plan) plan =
      .ok { is_complete := false
            confidence := "low"
            final_answer :=
              "Unable to fully complete the task: No data returned from tools."
            issues_found := ["No data returned from tools"]
            missing_data := []
            suggestions := []
            raw_results := some (execute_plan t plan) } := by
  have hplan : execute_plan t plan = planInit plan := by
    simp [execute_plan, h, exec_loop]
  rw [hplan]
  refine ⟨rfl, rfl, rfl, ?_⟩
  simp [verify_results, planInit, incomplete]

/-- The empty plan. -/
def emptyPlan : Plan :=
  { task_understanding := .str "nothing to do", steps := [] }

/-- Witness for C6 at the empty plan. -/
theorem executePlan_empty_steps_witness :
    (execute_plan newsRegistry emptyPlan).errors = [] ∧
    (execute_plan newsRegistry emptyPlan).raw_data = [] ∧
    (execute_plan newsRegistry emptyPlan).final_data = Option.none ∧
    verify_results "do nothing" (execute_plan newsRegistry emptyPlan)
        emptyPlan =
      .ok { is_complete := false
            confidence := "low"
            final_answer :=
              "Unable to fully complete the task: No data returned from tools."
            issues_found := ["No data returned from tools"]
            missing_data := []
            suggestions := []
            raw_results := some (execute_plan newsRegistry emptyPlan) } := by
  exact executePlan_empty_steps newsRegistry "do nothing" emptyPlan rfl

/-! ### Claims about the Result Verifier -/

/-- C5: a non-empty `errors` sequence makes verify_results return the
Incomplete shape with low confidence and the single issue "Execution
errors occurred", whatever `final_data` holds (the error check runs
before the no-data check). -/
theorem verifyResults_errors_first (task : String) (er : ExecutionResult)
    (plan : Plan) (h : er.errors ≠ []) :
    verify_results task er plan =
      .ok { is_complete := false
            confidence := "low"
            final_answer :=
              "Unable to fully complete the task: Execution errors occurred."
            issues_found := ["Execution errors occurred"]
            missing_data := []
            suggestions := []
            raw_results := some er } := by
  have hne : er.errors.isEmpty = false := by
    simp [List.isEmpty_eq_false, h]
  simp [verify_results, hne, incomplete]

/-- An execution result carrying one error entry and a present
`final_data` (so the error check, not the no-data check, must fire). -/
def erWithError : ExecutionResult :=
  { task := .str "t"
    steps_executed := []
    errors := [⟨.int 1, .str "Tool 'foo' not found"⟩]
    raw_data := [("step_1", errDict "Tool 'foo' not found")]
    final_data := some (.str "data") }

/-- A throwaway plan (verify_results ignores its plan argument). -/
def somePlan : Plan :=
  { task_understanding := .str "task", steps := [] }

/-- Witness for C5 at a concrete execution result with one error. -/
theorem verifyResults_errors_first_witness :
    verify_results "some task" erWithError somePlan =
      .ok { is_complete := false
            confidence := "low"
            final_answer :=
              "Unable to fully complete the task: Execution errors occurred."
            issues_found := ["Execution errors occurred"]
            missing_data := []
            suggestions := []
            raw_results := some erWithError } := by
  exact verifyResults_errors_first "some task" erWithError somePlan
    (by simp [erWithError])

/-- C8: with no errors and a `final_data` mapping whose `"articles"`
entry is the empty sequence, verify_results is Complete with the literal
final answer "No relevant news articles were found.". -/
theorem verifyResults_empty_articles (task : String)
    (er : ExecutionResult) (plan : Plan) (kvs : List (String × PyVal))
    (he : er.errors = []) (hf : er.final_data = some (.dict kvs))
    (ha : alookup kvs "articles" = some (.list [])) :
    verify_results task er plan =
      .ok { is_complete := true
            confidence := "high"
            final_answer := "No relevant news articles were found."
            issues_found := []
            missing_data := []
            suggestions := []
            raw_results := Option.none } := by
  have hk : kvs ≠ [] := by
    intro hnil
    rw [hnil] at ha
    simp [alookup] at ha
  have hke : kvs.isEmpty = false := by
    simp [List.isEmpty_eq_false, hk]
  have htr : pyTruthy (.dict kvs) = true := by
    simp [pyTruthy, hke]
  simp [verify_results, he, hf, htr, format_final_answer, ha, pyTruthy,
    hke]
  rfl

/-- An execution result whose final data is `{"articles": []}`. -/
def erNoArticles : ExecutionResult :=
  { task := .str "t"
    steps_executed := []
    errors := []
    raw_data := [("step_1", .dict [("articles", .list [])])]
    final_data := some (.dict [("articles", .list [])]) }

/-- Witness for C8 at `final_data = {"articles": []}`. -/
theorem verifyResults_empty_articles_witness :
    verify_results "latest news" erNoArticles somePlan =
      .ok { is_complete := true
            confidence := "high"
            final_answer := "No relevant news articles were found."
            issues_found := []
            missing_data := []
            suggestions := []
            raw_results := Option.none } := by
  exact verifyResults_empty_articles "latest news" erNoArticles somePlan
    [("articles", .list [])] rfl rfl rfl

/-- The weather payload of the spec's concrete example. -/
def weatherData : PyVal :=
  .dict [("temperature", .int 21), ("units", .str "°C"),
    ("description", .str "clear sky"), ("humidity", .int 40),
    ("wind_speed", .float "3.1")]

/-- The verifier's rendering of `weatherData`. -/
def weatherAnswer : String :=
  "Current Weather Report:\nTemperature: 21 °C\nCondition: clear sky\nHumidity: 40%\nWind Speed: 3.1 m/s"

/-- C9: a `final_data` mapping containing `"temperature"` but not
`"articles"` is rendered as the fixed report of temperature + units,
condition, humidity percentage and wind speed in m/s; on the spec's
concrete payload the rendering's lines include "Temperature: 21 °C",
"Condition: clear sky", "Humidity: 40%" and "Wind Speed: 3.1 m/s". -/
theorem verifyResults_weather_report (task : String)
    (er : ExecutionResult) (plan : Plan) (kvs : List (String × PyVal))
    (he : er.errors = []) (hf : er.final_data = some (.dict kvs))
    (ht : (alookup kvs "temperature").isSome = true)
    (ha : alookup kvs "articles" = Option.none) :
    verify_results task er plan =
      .ok { is_complete := true
            confidence := "high"
            final_answer := "Current Weather Report:\n"
              ++ "Temperature: "
              ++ pyStr ((alookup kvs "temperature").getD .none)
              ++ " " ++ pyStr ((alookup kvs "units").getD .none) ++ "\n"
              ++ "Condition: "
              ++ pyStr ((alookup kvs "description").getD .none) ++ "\n"
              ++ "Humidity: "
              ++ pyStr ((alookup kvs "humidity").getD .none) ++ "%\n"
              ++ "Wind Speed: "
              ++ pyStr ((alookup kvs "wind_speed").getD .none) ++ " m/s"
            issues_found := []
            missing_data := []
            suggestions := []
            raw_results := Option.none } ∧
    format_final_answer task weatherData = .ok weatherAnswer ∧
    weatherAnswer = "Current Weather Report:" ++ "\n"
      ++ "Temperature: 21 °C" ++ "\n" ++ "Condition: clear sky" ++ "\n"
      ++ "Humidity: 40%" ++ "\n" ++ "Wind Speed: 3.1 m/s" := by
  have hk : kvs ≠ [] := by
    intro hnil
    rw [hnil] at ht
    simp [alookup] at ht
  have hke : kvs.isEmpty = false := by
    simp [List.isEmpty_eq_false, hk]
  have htr : pyTruthy (.dict kvs) = true := by
    simp [pyTruthy, hke]
  refine ⟨?_, ?_, ?_⟩
  · simp [verify_results, he, hf, htr, format_final_answer, ha, ht, hke]
    rfl
  · rfl
  · rfl

/-- An execution result whose final data is the spec's weather payload. -/
def erWeather : ExecutionResult :=
  { task := .str "t"
    steps_executed := []
    errors := []
    raw_data := [("step_1", weatherData)]
    final_data := some weatherData }

/-- Witness for C9 at the spec's concrete weather payload. -/
theorem verifyResults_weather_report_witness :
    verify_results "weather in Paris" erWeather somePlan =
      .ok { is_complete := true
            confidence := "high"
            final_answer := "Current Weather Report:\n"
              ++ "Temperature: "
              ++ pyStr ((alookup [("temperature", PyVal.int 21),
                  ("units", PyVal.str "°C"),
                  ("description", PyVal.str "clear sky"),
                  ("humidity", PyVal.int 40),
                  ("wind_speed", PyVal.float "3.1")] "temperature").getD .none)
              ++ " " ++ pyStr ((alookup [("temperature", PyVal.int 21),
                  ("units", PyVal.str "°C"),
                  ("description", PyVal.str "clear sky"),
                  ("humidity", PyVal.int 40),
                  ("wind_speed", PyVal.float "3.1")] "units").getD .none) ++ "\n"
              ++ "Condition: "
              ++ pyStr ((alookup [("temperature", PyVal.int 21),
                  ("units", PyVal.str "°C"),
                  ("description", PyVal.str "clear sky"),
                  ("humidity", PyVal.int 40),
                  ("wind_speed", PyVal.float "3.1")] "description").getD .none) ++ "\n"
              ++ "Humidity: "
              ++ pyStr ((alookup [("temperature", PyVal.int 21),
                  ("units", PyVal.str "°C"),
                  ("description", PyVal.str "clear sky"),
                  ("humidity", PyVal.int 40),
                  ("wind_speed", PyVal.float "3.1")] "humidity").getD .none) ++ "%\n"
              ++ "Wind Speed: "
              ++ pyStr ((alookup [("temperature", PyVal.int 21),
                  ("units", PyVal.str "°C"),
                  ("description", PyVal.str "clear sky"),
                  ("humidity", PyVal.int 40),
                  ("wind_speed", PyVal.float "3.1")] "wind_speed").getD .none)
              ++ " m/s"
            issues_found := []
            missing_data := []
            suggestions := []
            raw_results := Option.none } := by
  exact (verifyResults_weather_report "weather in Paris" erWeather
    somePlan [("temperature", PyVal.int 21), ("units", PyVal.str "°C"),
      ("description", PyVal.str "clear sky"),
      ("humidity", PyVal.int 40), ("wind_speed", PyVal.float "3.1")]
    rfl rfl rfl rfl).1

/-! ### C2: totality of verification -/

/-- An article whose `"source"` field is a plain string, not a mapping —
the shape NewsAPI-style payloads would have if `source` were flattened. -/
def badArticlesData : PyVal :=
  .dict [("articles",
    .list [.dict [("title", .str "Tesla hits new high"),
      ("source", .str "BBC")]])]

/-- A clean execution result whose final data holds `badArticlesData`. -/
def erBadSource : ExecutionResult :=
  { task := .str "t"
    steps_executed := []
    errors := []
    raw_data := [("step_1", badArticlesData)]
    final_data := some badArticlesData }

/-- Counterexample to C2 as stated: verify_results raises
(`AttributeError`, from `article.get("source", {}).get("name", ...)`)
on a mapping whose `"articles"` entry contains an element whose
`"source"` field is not a mapping, instead of returning a
VerificationResult. -/
theorem verifyResults_raises_on_bad_source :
    verify_results "latest news" erBadSource somePlan =
      .error "AttributeError: 'str' object has no attribute 'get'" := by
  rfl

/-- An article renders without raising exactly when it is a mapping
whose `"source"` entry, when present, is itself a mapping. -/
def articleOk (a : PyVal) : Bool :=
  match a with
  | .dict kvs =>
    match alookup kvs "source" with
    | some (.dict _) => true
    | some _ => false
    | Option.none => true
  | _ => false

/-- A final-data payload reaches the end of the shape-dispatch rendering
without raising exactly when, if it is a mapping with a truthy
`"articles"` entry, that entry is a sequence all of whose elements
satisfy `articleOk`. -/
def renderSafe : Option PyVal → Bool
  | Option.none => true
  | some (.dict kvs) =>
    match alookup kvs "articles" with
    | some (.list xs) => xs.all articleOk
    | some v => !pyTruthy v
    | Option.none => true
  | some _ => true

/-- Whether a computation returned normally. -/
def isOkE {α β : Type} : Except α β → Bool
  | .ok _ => true
  | .error _ => false

theorem exists_ok {α β : Type} (e : Except α β) (h : isOkE e = true) :
    ∃ b : β, e = .ok b := by
  cases e with
  | ok b => exact ⟨b, rfl⟩
  | error a => simp [isOkE] at h

theorem render_article_ok (i : Nat) (a : PyVal)
    (h : articleOk a = true) : ∃ s : String, render_article i a = .ok s := by
  apply exists_ok
  cases a with
  | dict kvs =>
    cases hsrc : alookup kvs "source" with
    | none =>
      simp [render_article, pyGet, hsrc, isOkE]
      rfl
    | some src =>
      cases src with
      | dict skvs =>
        simp [render_article, pyGet, hsrc, isOkE]
        rfl
      | none => simp [articleOk, hsrc] at h
      | bool b => simp [articleOk, hsrc] at h
      | int n => simp [articleOk, hsrc] at h
      | float r => simp [articleOk, hsrc] at h
      | str s => simp [articleOk, hsrc] at h
      | list xs => simp [articleOk, hsrc] at h
  | none => simp [articleOk] at h
  | bool b => simp [articleOk] at h
  | int n => simp [articleOk] at h
  | float r => simp [articleOk] at h
  | str s => simp [articleOk] at h
  | list xs => simp [articleOk] at h

theorem render_articles_ok (xs : List PyVal) :
    ∀ i : Nat, xs.all articleOk = true →
    ∃ ls : List String, render_articles i xs = .ok ls := by
  induction xs with
  | nil => intro i _; exact ⟨[], rfl⟩
  | cons a rest ih =>
    intro i h
    rw [List.all_cons, Bool.and_eq_true] at h
    obtain ⟨s, hs⟩ := render_article_ok i a h.1
    obtain ⟨ls, hls⟩ := ih (i + 1) h.2
    refine ⟨s :: ls, ?_⟩
    simp [render_articles, hs, hls]
    rfl

theorem format_final_answer_ok (task : String) (fd : PyVal)
    (h : renderSafe (some fd) = true) :
    ∃ s : String, format_final_answer task fd = .ok s := by
  apply exists_ok
  cases fd with
  | dict kvs =>
    cases ha : alookup kvs "articles" with
    | none =>
      by_cases ht : (alookup kvs "temperature").isSome = true
      · simp [format_final_answer, ha, ht, isOkE]
      · simp [format_final_answer, ha, ht, isOkE]
    | some v =>
      by_cases htr : pyTruthy v = true
      · cases v with
        | list xs =>
          have hall : xs.all articleOk = true := by
            simpa [renderSafe, ha] using h
          obtain ⟨ls, hls⟩ := render_articles_ok xs 1 hall
          simp [format_final_answer, ha, htr, pyIter, isOkE]
          show isOkE (Except.bind (render_articles 1 xs) (fun lines =>
            Except.ok (String.intercalate "\n" (newsHeader :: lines))))
            = true
          rw [hls]
          rfl
        | none => simp [pyTruthy] at htr
        | bool b =>
          have : (!pyTruthy (PyVal.bool b)) = true := by
            simpa [renderSafe, ha] using h
          rw [htr] at this
          simp at this
        | int n =>
          have : (!pyTruthy (PyVal.int n)) = true := by
            simpa [renderSafe, ha] using h
          rw [htr] at this
          simp at this
        | float r =>
          have : (!pyTruthy (PyVal.float r)) = true := by
            simpa [renderSafe, ha] using h
          rw [htr] at this
          simp at this
        | str s =>
          have : (!pyTruthy (PyVal.str s)) = true := by
            simpa [renderSafe, ha] using h
          rw [htr] at this
          simp at this
        | dict kvs2 =>
          have : (!pyTruthy (PyVal.dict kvs2)) = true := by
            simpa [renderSafe, ha] using h
          rw [htr] at this
          simp at this
      · simp [format_final_answer, ha, htr, isOkE]
  | none => simp [format_final_answer, isOkE]
  | bool b => simp [format_final_answer, isOkE]
  | int n => simp [format_final_answer, isOkE]
  | float r => simp [format_final_answer, isOkE]
  | str s => simp [format_final_answer, isOkE]
  | list xs => simp [format_final_answer, isOkE]

/-- C2 (amended): verify_results always returns a VerificationResult —
never raises — provided that whenever `final_data` is a mapping with a
truthy `"articles"` entry, that entry is a sequence of mappings each of
whose `"source"` field, when present, is a mapping. (As stated for every
`final_data`, the claim is refuted by `verifyResults_raises_on_bad_source`:
a non-mapping `"source"` reaches `article.get("source", {}).get("name")`
and raises AttributeError.) -/
theorem verifyResults_total_when_renderSafe (task : String)
    (er : ExecutionResult) (plan : Plan)
    (h : renderSafe er.final_data = true) :
    ∃ v : VerificationResult, verify_results task er plan = .ok v := by
  apply exists_ok
  by_cases herr : er.errors.isEmpty = true
  · cases hfd : er.final_data with
    | none => simp [verify_results, herr, hfd, isOkE]
    | some fd =>
      by_cases htr : pyTruthy fd = true
      · rw [hfd] at h
        obtain ⟨s, hs⟩ := format_final_answer_ok task fd h
        simp [verify_results, herr, hfd, htr, hs, isOkE]
        rfl
      · simp [verify_results, herr, hfd, htr, isOkE]
  · simp [verify_results, herr, isOkE]

/-- A clean execution result with a well-shaped articles payload. -/
def erGoodArticles : ExecutionResult :=
  { task := .str "t"
    steps_executed := []
    errors := []
    raw_data := []
    final_data := some (.dict [("articles",
      .list [.dict [("title", .str "Tesla hits new high"),
        ("source", .dict [("name", .str "BBC")])]])]) }

/-- Witness for the amended C2 at a concrete well-shaped payload. -/
theorem verifyResults_total_when_renderSafe_witness :
    ∃ v : VerificationResult,
      verify_results "latest news" erGoodArticles somePlan = .ok v := by
  exact verifyResults_total_when_renderSafe "latest news" erGoodArticles
    somePlan rfl

end AIOps
